import Mathlib

/-!
Verification development for the financial-analyzer python engine.

The definitions below are a shallow embedding of the dispatch and
orchestration engine: the dataset context holder and the five chart/info
capabilities of src/python-engine/chart_tools.py, the agent loop and chat
wrapper of src/python-engine/financial_agent.py, and the request/response
bridge of src/python-engine/api_bridge.py.  Machine-level concerns that the
specification excludes as library boundaries (raster rendering, CSV byte
parsing, calendar arithmetic of parsed datetimes) are represented opaquely;
everything with decision logic is translated statement by statement.
-/

namespace FinAnalyzer

/-- Inferred pandas dtype of a column: `numeric` stands for the
`select_dtypes(include=[number])` class, `object` for the textual class used
as categorical, `datetime` for datetime64 columns, `other` for anything else
(for example bool). -/
inductive Dtype
  | numeric
  | object
  | datetime
  | other
deriving DecidableEq, Repr

/-- Cell value.  A parsed datetime is modelled opaquely as a tag `dt` around
the raw value it was parsed from: calendar arithmetic is a library concern
excluded from the core, while identity and equality of values are preserved. -/
inductive Value
  | num (n : Int)
  | str (s : String)
  | dt (raw : Value)
deriving DecidableEq, Repr

/-- Numeric content of a cell, used when a numeric-dtype column is summed. -/
def valInt : Value → Int
  | .num n => n
  | _ => 0

/-- Textual rendering of a cell (used only for table snapshots). -/
def valText : Value → String
  | .num n => toString n
  | .str s => s
  | .dt raw => "dt:" ++ valText raw

/-- One named column with its dtype and cell values. -/
structure Column where
  name : String
  dtype : Dtype
  values : List Value
deriving DecidableEq, Repr

/-- The single active rectangular dataset: a list of columns in declared
order. -/
structure Table where
  cols : List Column
deriving DecidableEq, Repr

/-- Row count, as pandas shape[0]. -/
def Table.nrows (t : Table) : Nat :=
  match t.cols with
  | [] => 0
  | c :: _ => c.values.length

/-- Embeds `select_dtypes(include=[number]).columns`: numeric columns in
declared order. -/
def Table.numericCols (t : Table) : List Column :=
  t.cols.filter (fun c => decide (c.dtype = Dtype.numeric))

/-- Embeds `select_dtypes(include=[object]).columns`: categorical columns in
declared order. -/
def Table.categoricalCols (t : Table) : List Column :=
  t.cols.filter (fun c => decide (c.dtype = Dtype.object))

/-- Byte-level substring test on char lists: is the first list a prefix of
the second. -/
def isPrefixCh : List Char → List Char → Bool
  | [], _ => true
  | _ :: _, [] => false
  | a :: as, b :: bs => a == b && isPrefixCh as bs

/-- Is the needle an infix of the haystack (char lists). -/
def isSubCh (needle : List Char) : List Char → Bool
  | [] => isPrefixCh needle []
  | c :: hs => isPrefixCh needle (c :: hs) || isSubCh needle hs

/-- Embeds the python `in` test on strings: substring containment. -/
def containsSub (hay needle : String) : Bool :=
  isSubCh needle.data hay.data

/-- Embeds the python `str.lower` method, character by character. -/
def toLowerStr (s : String) : String :=
  ⟨s.data.map Char.toLower⟩

/-- Embeds the python `str.endswith` method: suffix test on char lists. -/
def endsWithStr (s suf : String) : Bool :=
  isPrefixCh suf.data.reverse s.data.reverse

/-- Embeds the date-column heuristic of `generate_line_chart`:
`date in col.lower() or time in col.lower()`. -/
def isDateName (n : String) : Bool :=
  containsSub (toLowerStr n) "date" || containsSub (toLowerStr n) "time"

/-- Columns whose name matches the date heuristic, in declared order. -/
def Table.dateCols (t : Table) : List Column :=
  t.cols.filter (fun c => isDateName c.name)

/-- Content of a generated chart artifact, at the granularity the core
decides: which columns were selected and what aggregation was drawn.  The
raster rendering itself is an excluded library boundary. -/
inductive ChartSpec
  | bar (x y : String) (groups : List (Value × Int))
  | line (x y : String)
  | pie (col : String) (counts : List (Value × Int))
  | heatmap (cols : List String)
deriving DecidableEq, Repr

/-- A chart file written to the output location. -/
structure Artifact where
  name : String
  spec : ChartSpec
deriving DecidableEq, Repr

/-- Derived read-only summary of the active table, recomputed on load
(`self.data_context` in chart_tools). -/
structure Context where
  columns : List String
  shape : Nat × Nat
  dtypes : List Dtype
deriving DecidableEq, Repr

/-- State of a `ChartGenerator`: the active table, its derived context, and
the files present in the output directory in creation order (older first). -/
structure GenState where
  current_data : Option Table
  data_context : Option Context
  output_dir : List Artifact
deriving DecidableEq, Repr

/-- Result of one capability invocation: the returned message, the artifact
written by this call (if any), and the state after the call. -/
structure CapResult where
  message : String
  artifact : Option Artifact
  state : GenState
deriving DecidableEq, Repr

/-- The shared no-data message of all five capabilities. -/
def noDataMsg : String := "No data loaded. Please load a CSV or Excel file first."

/-- Sum of the numeric cells paired with key `k` (pandas groupby sum). -/
def sumFor (rows : List (Value × Int)) (k : Value) : Int :=
  ((rows.filter (fun r => decide (r.1 = k))).map (fun r => r.2)).sum

/-- Count of occurrences of `k` (pandas value_counts). -/
def countFor (vs : List Value) (k : Value) : Int :=
  ((vs.filter (fun v => decide (v = k))).length : Int)

/-- Embeds `groupby(x)[y].sum()`: one pair per distinct key, carrying the
group sum. -/
def groupSum (rows : List (Value × Int)) : List (Value × Int) :=
  ((rows.map (fun r => r.1)).dedup).map (fun k => (k, sumFor rows k))

/-- Ordered insertion for a descending sort keyed by the second component. -/
def insertDescBy (p : Value × Int) : List (Value × Int) → List (Value × Int)
  | [] => [p]
  | q :: qs => if p.2 ≤ q.2 then q :: insertDescBy p qs else p :: q :: qs

/-- Embeds `sort_values(ascending=False)`: descending sort by value. -/
def sortDescBy (l : List (Value × Int)) : List (Value × Int) :=
  l.foldr insertDescBy []

/-- Rows of the bar aggregation: category cell paired with the numeric cell
of the same row. -/
def colRows (xc yc : Column) : List (Value × Int) :=
  xc.values.zip (yc.values.map valInt)

/-- Embeds `ChartGenerator.generate_bar_chart`.  The unused prompt argument
of the source is omitted; the creation timestamp is passed explicitly. -/
def generate_bar_chart (ts : String) (s : GenState) : CapResult :=
  match s.current_data with
  | none => ⟨noDataMsg, none, s⟩
  | some t =>
    match t.numericCols, t.categoricalCols with
    | [], _ => ⟨"Data doesn\x27t have suitable columns for bar chart", none, s⟩
    | _ :: _, [] => ⟨"Data doesn\x27t have suitable columns for bar chart", none, s⟩
    | yc :: _, xc :: _ =>
      let grouped := sortDescBy (groupSum (colRows xc yc))
      let a : Artifact := ⟨"bar_chart_" ++ ts ++ ".png", ChartSpec.bar xc.name yc.name grouped⟩
      ⟨"Bar chart generated successfully: " ++ a.name, some a,
        { s with output_dir := s.output_dir ++ [a] }⟩

/-- Embeds `pandas.to_datetime` on one cell, opaquely: an already parsed
datetime is left unchanged, any other value becomes its parsed tag. -/
def pd_to_datetime (v : Value) : Value :=
  match v with
  | .dt raw => .dt raw
  | v => .dt v

/-- Column-wide datetime conversion: dtype becomes datetime64 and every cell
is parsed. -/
def convertColumn (c : Column) : Column :=
  { c with dtype := Dtype.datetime, values := c.values.map pd_to_datetime }

/-- Embeds the in-place assignment `df[name] = ...`: every column with that
label is replaced. -/
def setCol (t : Table) (n : String) (c' : Column) : Table :=
  ⟨t.cols.map (fun c => if c.name = n then c' else c)⟩

/-- Embeds `ChartGenerator.generate_line_chart`, including its in-place
update of the date column of the stored table. -/
def generate_line_chart (ts : String) (s : GenState) : CapResult :=
  match s.current_data with
  | none => ⟨noDataMsg, none, s⟩
  | some t =>
    match t.dateCols, t.numericCols with
    | [], _ => ⟨"Data doesn\x27t have suitable date and numeric columns for line chart", none, s⟩
    | _ :: _, [] => ⟨"Data doesn\x27t have suitable date and numeric columns for line chart", none, s⟩
    | dc :: _, yc :: _ =>
      let t' := setCol t dc.name (convertColumn dc)
      let a : Artifact := ⟨"line_chart_" ++ ts ++ ".png", ChartSpec.line dc.name yc.name⟩
      ⟨"Line chart generated successfully: " ++ a.name, some a,
        { s with current_data := some t', output_dir := s.output_dir ++ [a] }⟩

/-- Embeds `value_counts()`: count per distinct value, sorted descending by
count. -/
def valueCounts (vs : List Value) : List (Value × Int) :=
  sortDescBy (vs.dedup.map (fun k => (k, countFor vs k)))

/-- Embeds `ChartGenerator.generate_pie_chart`. -/
def generate_pie_chart (ts : String) (s : GenState) : CapResult :=
  match s.current_data with
  | none => ⟨noDataMsg, none, s⟩
  | some t =>
    match t.categoricalCols with
    | [] => ⟨"Data doesn\x27t have categorical columns for pie chart", none, s⟩
    | c :: _ =>
      let a : Artifact := ⟨"pie_chart_" ++ ts ++ ".png", ChartSpec.pie c.name (valueCounts c.values)⟩
      ⟨"Pie chart generated successfully: " ++ a.name, some a,
        { s with output_dir := s.output_dir ++ [a] }⟩

/-- Embeds `ChartGenerator.generate_heatmap`: all numeric columns, at least
two required; the correlation matrix drawn over them is identified by the
selected column list (the numeric correlation arithmetic is rendering). -/
def generate_heatmap (ts : String) (s : GenState) : CapResult :=
  match s.current_data with
  | none => ⟨noDataMsg, none, s⟩
  | some t =>
    if t.numericCols.length < 2 then
      ⟨"Need at least 2 numeric columns for correlation heatmap", none, s⟩
    else
      let a : Artifact := ⟨"heatmap_" ++ ts ++ ".png", ChartSpec.heatmap (t.numericCols.map (fun c => c.name))⟩
      ⟨"Heatmap generated successfully: " ++ a.name, some a,
        { s with output_dir := s.output_dir ++ [a] }⟩

/-- Structured text body of `get_data_info`, at the granularity the claims
use (the exact json indentation of the source is formatting). -/
def infoText (t : Table) : String :=
  "shape: (" ++ toString t.nrows ++ ", " ++ toString t.cols.length ++ ")\n" ++
  "columns: " ++ String.intercalate ", " (t.cols.map (fun c => c.name)) ++ "\n" ++
  "numeric_columns: " ++ String.intercalate ", " (t.numericCols.map (fun c => c.name)) ++ "\n" ++
  "categorical_columns: " ++ String.intercalate ", " (t.categoricalCols.map (fun c => c.name))

/-- Embeds `ChartGenerator.get_data_info`: pure read, no artifact, no state
change. -/
def get_data_info (s : GenState) : String :=
  match s.current_data with
  | none => noDataMsg
  | some t => "Data Information:\n" ++ infoText t

/-- Does the path carry the csv extension. -/
def endsCsv (p : String) : Bool := endsWithStr p ".csv"

/-- Does the path carry one of the excel extensions. -/
def endsExcel (p : String) : Bool := endsWithStr p ".xlsx" || endsWithStr p ".xls"

/-- Context recomputed in full on load. -/
def makeContext (t : Table) : Context :=
  ⟨t.cols.map (fun c => c.name), (t.nrows, t.cols.length), t.cols.map (fun c => c.dtype)⟩

/-- Embeds `ChartGenerator.load_data`.  The filesystem and the CSV/Excel
byte parsers are the oracle `fs`: `fs path = none` when the file is missing
or its content is unparseable (pandas raises, the except branch returns
False), `some t` when parsing yields table `t`.  An unrecognized extension
returns False before touching the file. -/
def load_data (fs : String → Option Table) (path : String) (s : GenState) : Bool × GenState :=
  if endsCsv path || endsExcel path then
    match fs path with
    | none => (false, s)
    | some t => (true, { s with current_data := some t, data_context := some (makeContext t) })
  else
    (false, s)

/-- Shape and columns reported by `FinancialAnalysisAgent.get_data_summary`
(none when no table is loaded). -/
structure Summary where
  shape : Nat × Nat
  columns : List String
deriving DecidableEq, Repr

/-- Embeds `FinancialAnalysisAgent.get_data_summary`. -/
def get_data_summary (s : GenState) : Option Summary :=
  s.current_data.map (fun t => ⟨(t.nrows, t.cols.length), t.cols.map (fun c => c.name)⟩)

/-- Python value as exchanged with the reasoning service and the request
file: string, number, boolean, None, list, or dict. -/
inductive PyVal
  | pstr (s : String)
  | pint (n : Int)
  | pbool (b : Bool)
  | pnone
  | plist (items : List PyVal)
  | pdict (fields : List (String × PyVal))
deriving Repr

mutual
/-- Models the python builtin `str` up to container punctuation (claims use
it only as an opaque stringification shared by both normalization sides). -/
def pyStr : PyVal → String
  | .pstr s => s
  | .pint n => toString n
  | .pbool b => if b then "True" else "False"
  | .pnone => "None"
  | .plist items => "[" ++ pyStrL items ++ "]"
  | .pdict fields => "\x7b" ++ pyStrD fields ++ "\x7d"
/-- Comma-joined renderings of list elements. -/
def pyStrL : List PyVal → String
  | [] => ""
  | [v] => pyStr v
  | v :: vs => pyStr v ++ ", " ++ pyStrL vs
/-- Comma-joined renderings of dict entries. -/
def pyStrD : List (String × PyVal) → String
  | [] => ""
  | [(k, v)] => k ++ ": " ++ pyStr v
  | (k, v) :: fs => k ++ ": " ++ pyStr v ++ ", " ++ pyStrD fs
end

/-- The five registered capabilities of `create_chart_tools`. -/
inductive ToolName
  | bar
  | line
  | pie
  | heatmap
  | info
deriving DecidableEq, Repr

/-- One decision of the external reasoning service: either a final answer
(of any shape) or a request to invoke one named capability. -/
inductive Decision
  | finish (answer : PyVal)
  | call (tool : ToolName)

/-- Dispatches one capability by name, returning its textual result and the
updated generator state. -/
def applyTool : ToolName → String → GenState → String × GenState
  | .bar, ts, s => ((generate_bar_chart ts s).message, (generate_bar_chart ts s).state)
  | .line, ts, s => ((generate_line_chart ts s).message, (generate_line_chart ts s).state)
  | .pie, ts, s => ((generate_pie_chart ts s).message, (generate_pie_chart ts s).state)
  | .heatmap, ts, s => ((generate_heatmap ts s).message, (generate_heatmap ts s).state)
  | .info, _, s => (get_data_info s, s)

/-- Outcome of the orchestration loop: final answer, number of decision
steps consumed, whether termination was forced by the iteration ceiling, and
the generator state after all invoked capabilities. -/
structure LoopResult where
  output : PyVal
  steps : Nat
  forced : Bool
  state : GenState

/-- Modelled from the spec: the bounded tool-calling loop itself lives in
the external agent-executor library and is absent from src; the source
configures it with an iteration ceiling of 5 and forced early stopping
(`max_iterations=5`, `early_stopping_method="force"` in
`FinancialAnalysisAgent.__init__`).  Each step consults the reasoning
service `oracle`; a capability request is executed against the generator
state, a final answer terminates the loop, and exhausting the ceiling
forcibly returns the stock partial answer as a normal result. -/
def runAgentLoop (oracle : Nat → Decision) (ts : String) : Nat → Nat → GenState → LoopResult
  | 0, i, s => ⟨.pstr "Agent stopped due to iteration limit.", i, true, s⟩
  | fuel + 1, i, s =>
    match oracle i with
    | .finish a => ⟨a, i + 1, false, s⟩
    | .call tool => runAgentLoop oracle ts fuel (i + 1) (applyTool tool ts s).2

/-- The configured executor: ceiling of 5 decision steps. -/
def agent_executor_invoke (oracle : Nat → Decision) (ts : String) (s : GenState) : LoopResult :=
  runAgentLoop oracle ts 5 0 s

/-- Embeds `FinancialAnalysisAgent._get_recent_charts`: every png file of
the output directory, newest first, at most five. -/
def getRecentCharts (s : GenState) : List String :=
  (((s.output_dir.map (fun a => a.name)).filter (fun f => endsWithStr f ".png")).reverse).take 5

/-- Result of `FinancialAnalysisAgent.chat`. -/
structure ChatResult where
  status : String
  response : PyVal
  charts : List String
  state : GenState

/-- Embeds `FinancialAnalysisAgent.chat`: run the executor, then scan the
output directory for recent charts. -/
def agent_chat (oracle : Nat → Decision) (ts : String) (s : GenState) : ChatResult :=
  let r := agent_executor_invoke oracle ts s
  ⟨"success", r.output, getRecentCharts r.state, r.state⟩

/-- Embeds the list-of-fragments arm of the bridge normalization: running
concatenation over the fragments; `none` models the TypeError raised by
`cleaned += item["text"]` when a fragment carries a non-string text field. -/
def normList : List PyVal → String → Option String
  | [], acc => some acc
  | item :: items, acc =>
    match item with
    | .pdict fields =>
      match List.lookup "text" fields with
      | some (.pstr t) => normList items (acc ++ t)
      | some _ => none
      | none => normList items acc
    | .pstr s => normList items (acc ++ s)
    | _ => normList items acc

/-- Embeds the response normalization of the bridge chat branch
(api_bridge.py lines 168-182): list of fragments, keyed dict, or anything
else; `none` models an exception escaping to the outer handler. -/
def normalize_code (raw : PyVal) : Option PyVal :=
  match raw with
  | .plist items => (normList items "").map .pstr
  | .pdict fields => some ((List.lookup "text" fields).getD (.pstr (pyStr raw)))
  | v => some (.pstr (pyStr v))

/-- Written from the words of the spec, for comparison with the source
embedding `normalize_code`: the text contributed by one fragment is its text
field, or the fragment itself when it is a string, and nothing otherwise. -/
def fragmentText (frag : PyVal) : Option String :=
  match frag with
  | .pstr s => some s
  | .pdict fields =>
    match List.lookup "text" fields with
    | some (.pstr t) => some t
    | _ => none
  | _ => none

/-- Concatenation of the fragment texts of a list. -/
def concatFragments : List PyVal → String
  | [] => ""
  | f :: fs => (fragmentText f).getD "" ++ concatFragments fs

/-- Written from the words of the spec: a fragment list becomes the
concatenation of fragment texts, a keyed object becomes its text field when
present and its stringification otherwise, anything else is stringified. -/
def normalize_spec (raw : PyVal) : PyVal :=
  match raw with
  | .plist items => .pstr (concatFragments items)
  | .pdict fields => (List.lookup "text" fields).getD (.pstr (pyStr raw))
  | v => .pstr (pyStr v)

/-- A fragment is well formed when any text field it carries is a string
(the shape the reasoning service emits). -/
def fragOk (frag : PyVal) : Bool :=
  match frag with
  | .pdict fields =>
    match List.lookup "text" fields with
    | some (.pstr _) => true
    | some _ => false
    | none => true
  | _ => true

/-- A raw answer is well formed when, if it is a fragment list, every
fragment is well formed. -/
def rawOk (raw : PyVal) : Bool :=
  match raw with
  | .plist items => items.all fragOk
  | _ => true

/-- The fixed trigger-substring list of the bridge chat branch, byte for
byte as in the source (the second entry is the mojibake rendering of the
word relatorio present in the file). -/
def tableKeywords : List String :=
  ["tabela", "relat√≥rio", "compare", "mostre dados", "gere uma", "liste", "breakdown"]

/-- Embeds `should_format_table`: some trigger is a substring of the
lowercased message. -/
def should_format_table (message : String) : Bool :=
  tableKeywords.any (fun k => containsSub (toLowerStr message) k)

/-- Markdown-style snapshot of the table (`df.to_markdown(index=False)`),
at the granularity the claims use: header, rule, one line per row. -/
def renderMarkdown (t : Table) : String :=
  String.intercalate " | " (t.cols.map (fun c => c.name)) ++ "\n" ++
  String.intercalate " | " (t.cols.map (fun _ => "---")) ++ "\n" ++
  String.intercalate "\n"
    ((List.range t.nrows).map (fun i =>
      String.intercalate " | " (t.cols.map (fun c => valText (c.values.getD i (.str ""))))))

/-- Plain-text snapshot of the table (`df.to_string(index=False)`). -/
def renderPlain (t : Table) : String :=
  String.intercalate " " (t.cols.map (fun c => c.name)) ++ "\n" ++
  String.intercalate "\n"
    ((List.range t.nrows).map (fun i =>
      String.intercalate " " (t.cols.map (fun c => valText (c.values.getD i (.str ""))))))

/-- One response record of the bridge.  Absent optional json keys are
`none`; the charts key is the empty list when absent. -/
structure BridgeResponse where
  id : PyVal
  status : String
  message : String
  tableData : Option String
  data : Option String
  charts : List String
  error : Option String
deriving Repr

/-- Embeds the chat branch of `process_kotlin_request` (api_bridge.py lines
160-201): run the agent chat, normalize its answer, and attach a table
snapshot when a trigger substring occurs in the message and a table is
active after the loop.  A normalization exception falls to the outer
handler, which still answers with the request id. -/
def chatBranch (reqId : PyVal) (message : String) (oracle : Nat → Decision) (ts : String)
    (s : GenState) : BridgeResponse :=
  let cr := agent_chat oracle ts s
  match normalize_code cr.response with
  | none =>
    ⟨reqId, "error", "Bridge processing error: TypeError", none, none, [], some "TypeError"⟩
  | some msg =>
    let tableData :=
      if should_format_table message then
        cr.state.current_data.map renderMarkdown
      else
        none
    ⟨reqId, cr.status, pyStr msg, tableData, none, cr.charts, none⟩

/-- Truthiness of a python value, as used by `and file_data` and
`if file_path`. -/
def pyTruthy : PyVal → Bool
  | .pstr s => s != ""
  | .pint n => n != 0
  | .pbool b => b
  | .pnone => false
  | .plist items => !items.isEmpty
  | .pdict fields => !fields.isEmpty

/-- Embeds the load_data branch of `process_kotlin_request` (api_bridge.py
lines 119-158). -/
def loadBranch (reqId : PyVal) (fileData : PyVal) (fs : String → Option Table) : BridgeResponse :=
  match fileData with
  | .pdict ff =>
    let pathVal := (List.lookup "path" ff).getD (.pstr "")
    if !pyTruthy pathVal then
      ⟨reqId, "error", "File path not provided", none, none, [], none⟩
    else
      match pathVal with
      | .pstr path =>
        let initState : GenState := ⟨none, none, []⟩
        match load_data fs path initState with
        | (true, s') =>
          match s'.current_data with
          | some t =>
            let nm := pyStr ((List.lookup "name" ff).getD (.pstr "Unknown"))
            ⟨reqId, "success",
              "Dados carregados com sucesso!\n\n**Arquivo:** " ++ nm ++
              "\n**Linhas:** " ++ toString t.nrows ++
              "\n**Colunas:** " ++ toString t.cols.length ++
              "\n\nData loaded successfully from " ++ path,
              some (renderMarkdown t), some (renderPlain t), [], none⟩
          | none =>
            ⟨reqId, "error", "Failed to load data", none, none, [],
              some ("Failed to load data from " ++ path)⟩
        | (false, _) =>
          ⟨reqId, "error", "Failed to load file", none, none, [],
            some ("Failed to load data from " ++ path)⟩
      | other =>
        ⟨reqId, "error", "Failed to load file", none, none, [],
          some ("Failed to load data from " ++ pyStr other)⟩
  | _ =>
    ⟨reqId, "error", "Bridge processing error: AttributeError", none, none, [],
      some "AttributeError"⟩

/-- Embeds `process_kotlin_request` end to end.  The request file content is
`none` when the body is not parseable json (json.load raises before the
request is bound, so the outer handler answers with the sentinel id) and
`some v` when it parses to the python value `v`.  The result is the single
response record written, or `none` when the handler itself raises and no
record is written at all: for a parsed body that is not a dict, the id
recovery `request_data.get` in the outer handler raises AttributeError.
`apiKeyOk` states whether agent initialization succeeds (credential
present). -/
def process_kotlin_request (content : Option PyVal) (apiKeyOk : Bool)
    (fs : String → Option Table) (oracle : Nat → Decision) (ts : String) :
    Option BridgeResponse :=
  match content with
  | none =>
    some ⟨.pstr "unknown", "error", "Bridge processing error: json parse failure",
      none, none, [], some "json parse failure"⟩
  | some (.pdict fields) =>
    let reqId := (List.lookup "id" fields).getD (.pstr "unknown")
    let reqType := (List.lookup "type" fields).getD (.pstr "chat")
    if !apiKeyOk then
      some ⟨reqId, "error", "Failed to initialize agent", none, none, [],
        some "Failed to initialize agent: missing api key"⟩
    else
      match reqType with
      | .pstr "load_data" =>
        let fileData := (List.lookup "fileData" fields).getD .pnone
        if pyTruthy fileData then
          some (loadBranch reqId fileData fs)
        else
          some ⟨reqId, "error", "Unknown request type: load_data", none, none, [], none⟩
      | .pstr "chat" =>
        match (List.lookup "message" fields).getD (.pstr "") with
        | .pstr m => some (chatBranch reqId m oracle ts ⟨none, none, []⟩)
        | _ =>
          some ⟨reqId, "error", "Bridge processing error: AttributeError", none, none, [],
            some "AttributeError"⟩
      | other =>
        some ⟨reqId, "error", "Unknown request type: " ++ pyStr other, none, none, [], none⟩
  | some _ => none

/-! Concrete states and oracles used to evaluate the development on small
inputs. -/

/-- A small table with one categorical and one numeric column. -/
def tableW : Table :=
  ⟨[⟨"month", Dtype.object, [.str "Jan", .str "Feb", .str "Jan"]⟩,
    ⟨"revenue", Dtype.numeric, [.num 5, .num 3, .num 2]⟩]⟩

/-- Generator state holding `tableW`. -/
def stateW : GenState := ⟨some tableW, none, []⟩

/-- A table with two numeric columns. -/
def tableH : Table :=
  ⟨[⟨"a", Dtype.numeric, [.num 1, .num 2]⟩, ⟨"b", Dtype.numeric, [.num 2, .num 4]⟩]⟩

/-- Generator state holding `tableH`. -/
def stateH : GenState := ⟨some tableH, none, []⟩

/-- Generator state with no loaded table and an empty output directory. -/
def stateN : GenState := ⟨none, none, []⟩

/-- A chart file left in the output directory by an earlier process. -/
def oldChart : Artifact := ⟨"old_chart.png", ChartSpec.heatmap []⟩

/-- Generator state with no table but a stale chart file on disk. -/
def stateOld : GenState := ⟨none, none, [oldChart]⟩

/-- Oracle that answers immediately without invoking any capability. -/
def oracleFinish : Nat → Decision := fun _ => .finish (.pstr "Here is the answer")

/-- Oracle that asks for a heatmap once and then answers. -/
def oracleHeatmapThenFinish : Nat → Decision :=
  fun n => if n = 0 then .call .heatmap else .finish (.pstr "There is no data loaded")

/-- Oracle that keeps invoking a capability and never answers. -/
def oracleCalls : Nat → Decision := fun _ => .call .info

/-- A table with a date-named categorical column and a numeric column. -/
def tableL : Table :=
  ⟨[⟨"Date", Dtype.object, [.str "2024-01-01"]⟩, ⟨"revenue", Dtype.numeric, [.num 5]⟩]⟩

/-- Generator state holding `tableL`. -/
def stateL : GenState := ⟨some tableL, none, []⟩

/-- A structured fragment-list answer of the reasoning service. -/
def exFragments : PyVal :=
  .plist [.pdict [("text", .pstr "Hello ")], .pstr "world", .pint 7,
    .pdict [("type", .pstr "tool_use")]]

/-! Ordered-insertion lemmas for the descending sort. -/

/-- Membership through ordered insertion. -/
theorem mem_insertDescBy (x p : Value × Int) (l : List (Value × Int)) :
    x ∈ insertDescBy p l ↔ x = p ∨ x ∈ l := by
  induction l with
  | nil => simp [insertDescBy]
  | cons q qs ih =>
    simp only [insertDescBy]
    by_cases h : p.2 ≤ q.2
    · rw [if_pos h]
      simp only [List.mem_cons, ih]
      tauto
    · rw [if_neg h]
      simp only [List.mem_cons]

/-- Ordered insertion preserves the descending order. -/
theorem pairwise_insertDescBy (p : Value × Int) (l : List (Value × Int))
    (h : l.Pairwise (fun a b => b.2 ≤ a.2)) :
    (insertDescBy p l).Pairwise (fun a b => b.2 ≤ a.2) := by
  induction l with
  | nil => simp [insertDescBy]
  | cons q qs ih =>
    rcases List.pairwise_cons.mp h with ⟨hq, hqs⟩
    simp only [insertDescBy]
    by_cases hpq : p.2 ≤ q.2
    · rw [if_pos hpq]
      refine List.pairwise_cons.mpr ⟨?_, ih hqs⟩
      intro x hx
      rcases (mem_insertDescBy x p qs).mp hx with rfl | hx
      · exact hpq
      · exact hq x hx
    · rw [if_neg hpq]
      push_neg at hpq
      refine List.pairwise_cons.mpr ⟨?_, h⟩
      intro x hx
      rcases List.mem_cons.mp hx with rfl | hx
      · exact le_of_lt hpq
      · exact le_trans (hq x hx) (le_of_lt hpq)

/-- Sorting permutes membership. -/
theorem mem_sortDescBy (x : Value × Int) (l : List (Value × Int)) :
    x ∈ sortDescBy l ↔ x ∈ l := by
  induction l with
  | nil => simp [sortDescBy]
  | cons p ps ih =>
    have h : sortDescBy (p :: ps) = insertDescBy p (sortDescBy ps) := rfl
    rw [h, mem_insertDescBy, ih, List.mem_cons]

/-- The sort output is descending in its second component. -/
theorem pairwise_sortDescBy (l : List (Value × Int)) :
    (sortDescBy l).Pairwise (fun a b => b.2 ≤ a.2) := by
  induction l with
  | nil => simp [sortDescBy]
  | cons p ps ih => exact pairwise_insertDescBy p (sortDescBy ps) ih

/-- Characterization of the groupby-sum aggregation. -/
theorem mem_groupSum (rows : List (Value × Int)) (kv : Value × Int) :
    kv ∈ groupSum rows ↔ kv.1 ∈ rows.map (fun r => r.1) ∧ kv.2 = sumFor rows kv.1 := by
  unfold groupSum
  rw [List.mem_map]
  constructor
  · rintro ⟨k, hk, rfl⟩
    exact ⟨List.mem_dedup.mp hk, rfl⟩
  · rintro ⟨hk, hv⟩
    refine ⟨kv.1, List.mem_dedup.mpr hk, ?_⟩
    rw [← hv]

/-- Claim C1: for a loaded table with at least one categorical and one
numeric column, the bar capability selects the first categorical column as
x and the first numeric column as y (declared order), groups rows by x,
sums y per group, orders the groups descending by the summed value, and
writes one artifact; with no categorical or no numeric column it returns a
descriptive message and produces no artifact. -/
theorem C1_bar_selection (ts : String) (s : GenState) (t : Table)
    (hload : s.current_data = some t) :
    ((t.categoricalCols = [] ∨ t.numericCols = []) →
      (generate_bar_chart ts s).message = "Data doesn\x27t have suitable columns for bar chart" ∧
      (generate_bar_chart ts s).artifact = none ∧
      (generate_bar_chart ts s).state = s) ∧
    (∀ xc xrest yc yrest, t.categoricalCols = xc :: xrest → t.numericCols = yc :: yrest →
      (generate_bar_chart ts s).artifact =
        some ⟨"bar_chart_" ++ ts ++ ".png",
          ChartSpec.bar xc.name yc.name (sortDescBy (groupSum (colRows xc yc)))⟩ ∧
      (generate_bar_chart ts s).state.output_dir =
        s.output_dir ++ [⟨"bar_chart_" ++ ts ++ ".png",
          ChartSpec.bar xc.name yc.name (sortDescBy (groupSum (colRows xc yc)))⟩] ∧
      (∀ kv ∈ sortDescBy (groupSum (colRows xc yc)),
        kv.1 ∈ xc.values ∧ kv.2 = sumFor (colRows xc yc) kv.1) ∧
      (xc.values.length = yc.values.length →
        ∀ k ∈ xc.values, ∃ v, (k, v) ∈ sortDescBy (groupSum (colRows xc yc))) ∧
      (sortDescBy (groupSum (colRows xc yc))).Pairwise (fun a b => b.2 ≤ a.2)) := by
  constructor
  · intro hfail
    have hres : generate_bar_chart ts s =
        ⟨"Data doesn\x27t have suitable columns for bar chart", none, s⟩ := by
      rcases hfail with hc | hn
      · cases hn : t.numericCols with
        | nil => simp [generate_bar_chart, hload, hn]
        | cons y ys => simp [generate_bar_chart, hload, hn, hc]
      · simp [generate_bar_chart, hload, hn]
    rw [hres]
    exact ⟨rfl, rfl, rfl⟩
  · intro xc xrest yc yrest hc hn
    have hres : generate_bar_chart ts s =
        ⟨"Bar chart generated successfully: " ++ ("bar_chart_" ++ ts ++ ".png"),
          some ⟨"bar_chart_" ++ ts ++ ".png",
            ChartSpec.bar xc.name yc.name (sortDescBy (groupSum (colRows xc yc)))⟩,
          { s with output_dir := s.output_dir ++ [⟨"bar_chart_" ++ ts ++ ".png",
            ChartSpec.bar xc.name yc.name (sortDescBy (groupSum (colRows xc yc)))⟩] }⟩ := by
      simp [generate_bar_chart, hload, hc, hn]
    refine ⟨by rw [hres], by rw [hres], ?_, ?_, pairwise_sortDescBy _⟩
    · intro kv hkv
      rw [mem_sortDescBy, mem_groupSum] at hkv
      obtain ⟨h1, h2⟩ := hkv
      refine ⟨?_, h2⟩
      rw [List.mem_map] at h1
      obtain ⟨r, hr, hr1⟩ := h1
      have hx : (r.1, r.2) ∈ xc.values.zip (yc.values.map valInt) := by
        rw [Prod.mk.eta]
        exact hr
      rw [← hr1]
      exact (List.of_mem_zip hx).1
    · intro hlen k hk
      refine ⟨sumFor (colRows xc yc) k, ?_⟩
      rw [mem_sortDescBy, mem_groupSum]
      refine ⟨?_, rfl⟩
      have hfst : (colRows xc yc).map (fun r => r.1) = xc.values := by
        unfold colRows
        have hle : xc.values.length ≤ (yc.values.map valInt).length := by
          rw [List.length_map]
          omega
        exact List.map_fst_zip _ _ hle
      rw [hfst]
      exact hk

/-- Witness for C1: on `tableW` the bar capability produces the expected
artifact. -/
theorem C1_bar_selection_witness :
    (generate_bar_chart "ts0" stateW).artifact =
      some ⟨"bar_chart_" ++ "ts0" ++ ".png",
        ChartSpec.bar "month" "revenue"
          (sortDescBy (groupSum (colRows
            ⟨"month", Dtype.object, [.str "Jan", .str "Feb", .str "Jan"]⟩
            ⟨"revenue", Dtype.numeric, [.num 5, .num 3, .num 2]⟩)))⟩ :=
  ((C1_bar_selection "ts0" stateW tableW rfl).2
    ⟨"month", Dtype.object, [.str "Jan", .str "Feb", .str "Jan"]⟩ []
    ⟨"revenue", Dtype.numeric, [.num 5, .num 3, .num 2]⟩ [] rfl rfl).1

/-- Claim C2 (amended): with fewer than 2 numeric columns the heatmap
capability returns failure text and writes no artifact; with 2 or more it
computes the correlation matrix over all numeric columns and writes exactly
one artifact, and its returned message names the generated heatmap file.
The word correlation appears in the failure message only, not in the
success message, which is the amendment to the claim. -/
theorem C2_heatmap_behavior (ts : String) (s : GenState) (t : Table)
    (hload : s.current_data = some t) :
    (t.numericCols.length < 2 →
      (generate_heatmap ts s).message = "Need at least 2 numeric columns for correlation heatmap" ∧
      (generate_heatmap ts s).artifact = none ∧
      (generate_heatmap ts s).state = s) ∧
    (2 ≤ t.numericCols.length →
      (generate_heatmap ts s).message =
        "Heatmap generated successfully: " ++ ("heatmap_" ++ ts ++ ".png") ∧
      (generate_heatmap ts s).artifact =
        some ⟨"heatmap_" ++ ts ++ ".png",
          ChartSpec.heatmap (t.numericCols.map (fun c => c.name))⟩ ∧
      (generate_heatmap ts s).state.output_dir =
        s.output_dir ++ [⟨"heatmap_" ++ ts ++ ".png",
          ChartSpec.heatmap (t.numericCols.map (fun c => c.name))⟩] ∧
      (generate_heatmap ts s).state.current_data = s.current_data) := by
  constructor
  · intro h
    simp [generate_heatmap, hload, h]
  · intro h
    have h' : ¬ (t.numericCols.length < 2) := by omega
    simp [generate_heatmap, hload, h']

/-- Witness for C2: both branches evaluated on concrete tables. -/
theorem C2_heatmap_behavior_witness :
    (generate_heatmap "ts0" stateH).artifact =
      some ⟨"heatmap_" ++ "ts0" ++ ".png",
        ChartSpec.heatmap (tableH.numericCols.map (fun c => c.name))⟩ ∧
    (generate_heatmap "ts0" stateW).artifact = none :=
  ⟨((C2_heatmap_behavior "ts0" stateH tableH rfl).2 (by decide)).2.1,
   ((C2_heatmap_behavior "ts0" stateW tableW rfl).1 (by decide)).2.1⟩

/-- Counterexample for C2 as stated: on a table with two numeric columns
the capability writes its artifact, but the returned message does not
reference the word correlation. -/
theorem C2_counterexample :
    2 ≤ tableH.numericCols.length ∧
    (generate_heatmap "20240101_120000" stateH).artifact.isSome = true ∧
    containsSub (generate_heatmap "20240101_120000" stateH).message "correlation" = false := by
  decide

/-- A load call fails when the extension is unrecognized or when the parse
oracle rejects the file (missing or malformed content). -/
def loadFails (fs : String → Option Table) (path : String) : Prop :=
  (endsCsv path = false ∧ endsExcel path = false) ∨ fs path = none

/-- Claim C3: a failed load leaves the previously active table, its derived
context, and the reported summary unchanged. -/
theorem C3_load_transactional (fs : String → Option Table) (path : String) (s : GenState)
    (h : loadFails fs path) :
    load_data fs path s = (false, s) ∧
    get_data_summary (load_data fs path s).2 = get_data_summary s ∧
    (load_data fs path s).2.data_context = s.data_context := by
  have hres : load_data fs path s = (false, s) := by
    rcases h with ⟨h1, h2⟩ | h
    · simp [load_data, h1, h2]
    · cases hx : (endsCsv path || endsExcel path) with
      | false => simp [load_data, hx]
      | true => simp [load_data, hx, h]
  exact ⟨hres, by rw [hres], by rw [hres]⟩

/-- Witness for C3: a missing csv file leaves the state with `tableW`
untouched. -/
theorem C3_load_transactional_witness :
    load_data (fun _ => none) "data.csv" stateW = (false, stateW) :=
  (C3_load_transactional (fun _ => none) "data.csv" stateW (Or.inr rfl)).1

/-- Claim C5: with no table loaded, each of the five capabilities returns
the no-data message, writes no artifact, and leaves the state unchanged;
all five are total functions of the state (no exception escapes). -/
theorem C5_no_data_graceful (ts : String) (s : GenState) (h : s.current_data = none) :
    (generate_bar_chart ts s).message = noDataMsg ∧
    (generate_bar_chart ts s).artifact = none ∧
    (generate_bar_chart ts s).state = s ∧
    (generate_line_chart ts s).message = noDataMsg ∧
    (generate_line_chart ts s).artifact = none ∧
    (generate_line_chart ts s).state = s ∧
    (generate_pie_chart ts s).message = noDataMsg ∧
    (generate_pie_chart ts s).artifact = none ∧
    (generate_pie_chart ts s).state = s ∧
    (generate_heatmap ts s).message = noDataMsg ∧
    (generate_heatmap ts s).artifact = none ∧
    (generate_heatmap ts s).state = s ∧
    get_data_info s = noDataMsg := by
  simp [generate_bar_chart, generate_line_chart, generate_pie_chart, generate_heatmap,
    get_data_info, h]

/-- Witness for C5: the bar capability on the empty state. -/
theorem C5_no_data_graceful_witness :
    (generate_bar_chart "ts0" stateN).message = noDataMsg :=
  (C5_no_data_graceful "ts0" stateN rfl).1

/-- The loop consumes at most its fuel in decision steps. -/
theorem runAgentLoop_steps_le (oracle : Nat → Decision) (ts : String) :
    ∀ (fuel i : Nat) (s : GenState), (runAgentLoop oracle ts fuel i s).steps ≤ i + fuel := by
  intro fuel
  induction fuel with
  | zero => intro i s; simp [runAgentLoop]
  | succ fuel ih =>
    intro i s
    cases h : oracle i with
    | finish a =>
      simp only [runAgentLoop, h]
      omega
    | call tool =>
      simp only [runAgentLoop, h]
      have := ih (i + 1) (applyTool tool ts s).2
      omega

/-- When the oracle keeps requesting capabilities, the loop exhausts its
fuel and returns the forced stock answer. -/
theorem runAgentLoop_forced (oracle : Nat → Decision) (ts : String) :
    ∀ (fuel i : Nat) (s : GenState),
      (∀ k, k < fuel → ∃ tool, oracle (i + k) = .call tool) →
      (runAgentLoop oracle ts fuel i s).forced = true ∧
      (runAgentLoop oracle ts fuel i s).steps = i + fuel ∧
      (runAgentLoop oracle ts fuel i s).output = .pstr "Agent stopped due to iteration limit." := by
  intro fuel
  induction fuel with
  | zero => intro i s _; exact ⟨rfl, rfl, rfl⟩
  | succ fuel ih =>
    intro i s h
    obtain ⟨tool, htool⟩ := h 0 (Nat.succ_pos fuel)
    rw [Nat.add_zero] at htool
    have hshift : ∀ k, k < fuel → ∃ tool, oracle (i + 1 + k) = .call tool := by
      intro k hk
      have h2 := h (k + 1) (by omega)
      rwa [show i + (k + 1) = i + 1 + k by omega] at h2
    have hrec := ih (i + 1) (applyTool tool ts s).2 hshift
    simp only [runAgentLoop, htool]
    exact ⟨hrec.1, by rw [hrec.2.1]; omega, hrec.2.2⟩

/-- When the oracle answers at step j after j capability requests, the loop
stops there with that answer. -/
theorem runAgentLoop_early (oracle : Nat → Decision) (ts : String) :
    ∀ (fuel j i : Nat) (s : GenState) (a : PyVal),
      j < fuel →
      (∀ k, k < j → ∃ tool, oracle (i + k) = .call tool) →
      oracle (i + j) = .finish a →
      (runAgentLoop oracle ts fuel i s).output = a ∧
      (runAgentLoop oracle ts fuel i s).steps = i + j + 1 ∧
      (runAgentLoop oracle ts fuel i s).forced = false := by
  intro fuel
  induction fuel with
  | zero => intro j i s a hj _ _; exact absurd hj (Nat.not_lt_zero j)
  | succ fuel ih =>
    intro j i s a hj hcalls hfin
    cases j with
    | zero =>
      rw [Nat.add_zero] at hfin
      simp [runAgentLoop, hfin]
    | succ j =>
      obtain ⟨tool, htool⟩ := hcalls 0 (Nat.succ_pos j)
      rw [Nat.add_zero] at htool
      have hshift : ∀ k, k < j → ∃ tool, oracle (i + 1 + k) = .call tool := by
        intro k hk
        have h2 := hcalls (k + 1) (by omega)
        rwa [show i + (k + 1) = i + 1 + k by omega] at h2
      have hfin' : oracle (i + 1 + j) = .finish a := by
        rwa [show i + (j + 1) = i + 1 + j by omega] at hfin
      have hrec := ih j (i + 1) (applyTool tool ts s).2 a (by omega) hshift hfin'
      simp only [runAgentLoop, htool]
      exact ⟨hrec.1, by rw [hrec.2.1]; omega, hrec.2.2⟩

/-- Claim C6: the configured executor performs at most 5 decision steps,
terminates earlier when the reasoning service answers, and after the 5th
step forcibly returns the stock partial answer as a normal success result. -/
theorem C6_loop_bounded (oracle : Nat → Decision) (ts : String) (s : GenState) :
    (agent_executor_invoke oracle ts s).steps ≤ 5 ∧
    (∀ j a, j < 5 → (∀ k, k < j → ∃ tool, oracle k = .call tool) → oracle j = .finish a →
      (agent_executor_invoke oracle ts s).output = a ∧
      (agent_executor_invoke oracle ts s).steps = j + 1 ∧
      (agent_executor_invoke oracle ts s).forced = false) ∧
    ((∀ k, k < 5 → ∃ tool, oracle k = .call tool) →
      (agent_executor_invoke oracle ts s).forced = true ∧
      (agent_executor_invoke oracle ts s).steps = 5 ∧
      (agent_chat oracle ts s).status = "success" ∧
      (agent_chat oracle ts s).response = .pstr "Agent stopped due to iteration limit.") := by
  refine ⟨?_, ?_, ?_⟩
  · have h := runAgentLoop_steps_le oracle ts 5 0 s
    simpa [agent_executor_invoke] using h
  · intro j a hj hcalls hfin
    have h := runAgentLoop_early oracle ts 5 j 0 s a hj
      (by intro k hk; simpa using hcalls k hk) (by simpa using hfin)
    simpa [agent_executor_invoke] using h
  · intro hcalls
    have hf := runAgentLoop_forced oracle ts 5 0 s (by intro k hk; simpa using hcalls k hk)
    refine ⟨hf.1, by simpa [agent_executor_invoke] using hf.2.1, rfl, ?_⟩
    show (agent_executor_invoke oracle ts s).output = _
    exact hf.2.2

/-- Witness for C6: immediate answer stops after one step; a capability-only
oracle is forced at step 5 and still yields a success result. -/
theorem C6_loop_bounded_witness :
    ((agent_executor_invoke oracleFinish "ts0" stateN).output = .pstr "Here is the answer" ∧
      (agent_executor_invoke oracleFinish "ts0" stateN).steps = 1 ∧
      (agent_executor_invoke oracleFinish "ts0" stateN).forced = false) ∧
    ((agent_executor_invoke oracleCalls "ts0" stateN).forced = true ∧
      (agent_executor_invoke oracleCalls "ts0" stateN).steps = 5 ∧
      (agent_chat oracleCalls "ts0" stateN).status = "success" ∧
      (agent_chat oracleCalls "ts0" stateN).response =
        .pstr "Agent stopped due to iteration limit.") := by
  constructor
  · have h := (C6_loop_bounded oracleFinish "ts0" stateN).2.1 0 (.pstr "Here is the answer")
      (by omega) (fun k hk => absurd hk (by omega)) rfl
    simpa using h
  · exact (C6_loop_bounded oracleCalls "ts0" stateN).2.2 (fun k _ => ⟨.info, rfl⟩)

/-- Counterexample for C7 as stated: a chat that invokes the heatmap
capability with no table active creates no artifact (the output directory
is unchanged by the loop), yet the returned chart list is not empty, because
it picks up a stale file already present in the output location. -/
theorem C7_counterexample :
    (agent_chat oracleHeatmapThenFinish "t0" stateOld).state.output_dir = stateOld.output_dir ∧
    (agent_chat oracleHeatmapThenFinish "t0" stateOld).charts = ["old_chart.png"] := by
  decide

/-- Claim C7 (amended): the chart list of a chat holds the up to 5 most
recently created png files present in the output location after the loop,
whether or not they were created during this request; when the service
invokes no capability the list is exactly the png files already present,
newest first, capped at 5. -/
theorem C7_recent_charts :
    (∀ (oracle : Nat → Decision) (ts : String) (s : GenState),
      (agent_chat oracle ts s).charts.length ≤ 5) ∧
    (∀ (oracle : Nat → Decision) (ts : String) (s : GenState) (f : String),
      f ∈ (agent_chat oracle ts s).charts →
      f ∈ (agent_chat oracle ts s).state.output_dir.map (fun a => a.name) ∧
      endsWithStr f ".png" = true) ∧
    (∀ (ans : PyVal) (ts : String) (s : GenState),
      (agent_chat (fun _ => .finish ans) ts s).charts =
        (((s.output_dir.map (fun a => a.name)).filter (fun f => endsWithStr f ".png")).reverse).take 5) := by
  refine ⟨?_, ?_, ?_⟩
  · intro oracle ts s
    rw [show (agent_chat oracle ts s).charts =
      ((((agent_executor_invoke oracle ts s).state.output_dir.map (fun a => a.name)).filter
        (fun f => endsWithStr f ".png")).reverse).take 5 from rfl, List.length_take]
    exact min_le_left _ _
  · intro oracle ts s f hf
    rw [show (agent_chat oracle ts s).charts =
      ((((agent_executor_invoke oracle ts s).state.output_dir.map (fun a => a.name)).filter
        (fun f => endsWithStr f ".png")).reverse).take 5 from rfl] at hf
    have h1 := List.mem_of_mem_take hf
    rw [List.mem_reverse, List.mem_filter] at h1
    exact ⟨h1.1, h1.2⟩
  · intro ans ts s
    rfl

/-- Witness for C7: the stale file is reported among the charts of a chat
even though the loop created nothing. -/
theorem C7_recent_charts_witness :
    "old_chart.png" ∈ (agent_chat oracleHeatmapThenFinish "t0" stateOld).state.output_dir.map
      (fun a => a.name) ∧
    endsWithStr "old_chart.png" ".png" = true :=
  C7_recent_charts.2.1 oracleHeatmapThenFinish "t0" stateOld "old_chart.png" (by decide)

/-- The running concatenation of the list arm equals the prefix followed by
the fragment texts, for well-formed fragments. -/
theorem normList_append (items : List PyVal) (acc : String)
    (h : items.all fragOk = true) :
    normList items acc = some (acc ++ concatFragments items) := by
  induction items generalizing acc with
  | nil => simp [normList, concatFragments]
  | cons item items ih =>
    rw [List.all_cons, Bool.and_eq_true] at h
    obtain ⟨h1, h2⟩ := h
    cases item with
    | pdict fields =>
      cases hl : List.lookup "text" fields with
      | none =>
        have ihe := ih acc h2
        simp [normList, hl, concatFragments, fragmentText, ihe]
      | some v =>
        cases v with
        | pstr t =>
          have ihe := ih (acc ++ t) h2
          simp [normList, hl, concatFragments, fragmentText, ihe, String.append_assoc]
        | pint n => simp [fragOk, hl] at h1
        | pbool b => simp [fragOk, hl] at h1
        | pnone => simp [fragOk, hl] at h1
        | plist l => simp [fragOk, hl] at h1
        | pdict f => simp [fragOk, hl] at h1
    | pstr s =>
      have ihe := ih (acc ++ s) h2
      simp [normList, concatFragments, fragmentText, ihe, String.append_assoc]
    | pint n =>
      have ihe := ih acc h2
      simp [normList, concatFragments, fragmentText, ihe]
    | pbool b =>
      have ihe := ih acc h2
      simp [normList, concatFragments, fragmentText, ihe]
    | pnone =>
      have ihe := ih acc h2
      simp [normList, concatFragments, fragmentText, ihe]
    | plist l =>
      have ihe := ih acc h2
      simp [normList, concatFragments, fragmentText, ihe]

/-- Claim C8: for well-formed reasoning-service answers, the normalization
implemented by the bridge coincides with the documented rule: concatenate
fragment texts for a list, take the text field of a keyed object when
present and its stringification otherwise, and stringify anything else. -/
theorem C8_normalization (raw : PyVal) (h : rawOk raw = true) :
    normalize_code raw = some (normalize_spec raw) := by
  cases raw with
  | plist items =>
    have h' : items.all fragOk = true := by simpa [rawOk] using h
    simp only [normalize_code, normalize_spec]
    rw [normList_append items "" h']
    simp [String.empty_append]
  | pdict fields => rfl
  | pstr s => rfl
  | pint n => rfl
  | pbool b => rfl
  | pnone => rfl

/-- Witness for C8: a mixed fragment list (dict with text, bare string,
number, dict without text) is normalized identically by both rules. -/
theorem C8_normalization_witness :
    normalize_code exFragments = some (normalize_spec exFragments) :=
  C8_normalization exFragments (by decide)

/-- Counterexample for C9 as stated: the message contains the English
trigger word table and a table is active, yet the response attaches no
table snapshot, because the trigger list of the source holds portuguese
substrings only. -/
theorem C9_counterexample :
    containsSub (toLowerStr "Please draw a table of revenue") "table" = true ∧
    (agent_chat oracleFinish "t0" stateW).state.current_data.isSome = true ∧
    (chatBranch (.pstr "9") "Please draw a table of revenue" oracleFinish "t0" stateW).tableData
      = none := by
  decide

/-- Claim C9 (amended): the trigger substrings are the fixed source list
(tabela, the mojibake spelling of relatorio, compare, mostre dados, gere
uma, liste, breakdown) matched against the lowercased message; when one
matches, the response attaches the rendered snapshot of the table active
after the loop, and when none matches or no table is active, tableData is
absent. -/
theorem C9_table_trigger (reqId : PyVal) (message : String) (oracle : Nat → Decision)
    (ts : String) (s : GenState) (m : PyVal)
    (hnorm : normalize_code (agent_chat oracle ts s).response = some m) :
    (should_format_table message = true →
      (chatBranch reqId message oracle ts s).tableData =
        (agent_chat oracle ts s).state.current_data.map renderMarkdown) ∧
    (should_format_table message = false →
      (chatBranch reqId message oracle ts s).tableData = none) ∧
    ((agent_chat oracle ts s).state.current_data = none →
      (chatBranch reqId message oracle ts s).tableData = none) := by
  refine ⟨?_, ?_, ?_⟩ <;> intro h <;> simp [chatBranch, hnorm, h]

/-- Witness for C9: a message containing the substring gere uma makes the
bridge attach the snapshot of the active table. -/
theorem C9_table_trigger_witness :
    (chatBranch (.pstr "1") "gere uma tabela" oracleFinish "t0" stateW).tableData =
      (agent_chat oracleFinish "t0" stateW).state.current_data.map renderMarkdown :=
  (C9_table_trigger (.pstr "1") "gere uma tabela" oracleFinish "t0" stateW
    (.pstr "Here is the answer") rfl).1 (by decide)

/-- The bar capability never changes the active table. -/
theorem bar_preserves_table (ts : String) (s : GenState) :
    (generate_bar_chart ts s).state.current_data = s.current_data := by
  cases h : s.current_data with
  | none => simp [generate_bar_chart, h]
  | some t =>
    cases hn : t.numericCols with
    | nil => simp [generate_bar_chart, h, hn]
    | cons y ys =>
      cases hc : t.categoricalCols with
      | nil => simp [generate_bar_chart, h, hn, hc]
      | cons x xs => simp [generate_bar_chart, h, hn, hc]

/-- The pie capability never changes the active table. -/
theorem pie_preserves_table (ts : String) (s : GenState) :
    (generate_pie_chart ts s).state.current_data = s.current_data := by
  cases h : s.current_data with
  | none => simp [generate_pie_chart, h]
  | some t =>
    cases hc : t.categoricalCols with
    | nil => simp [generate_pie_chart, h, hc]
    | cons x xs => simp [generate_pie_chart, h, hc]

/-- The heatmap capability never changes the active table. -/
theorem heatmap_preserves_table (ts : String) (s : GenState) :
    (generate_heatmap ts s).state.current_data = s.current_data := by
  cases h : s.current_data with
  | none => simp [generate_heatmap, h]
  | some t =>
    by_cases hn : t.numericCols.length < 2
    · simp [generate_heatmap, h, hn]
    · simp [generate_heatmap, h, hn]

/-- Claim C10: when a date-named column and a numeric column exist, the
line capability stores back the table with that column overwritten by its
parsed datetimes; when the column was not already of datetime dtype (as
after any csv load) the stored table differs from the loaded one; and no
other capability modifies the active table. -/
theorem C10_line_mutates (ts : String) (s : GenState) (t : Table)
    (dc : Column) (drest : List Column) (yc : Column) (yrest : List Column)
    (hload : s.current_data = some t)
    (hd : t.dateCols = dc :: drest) (hn : t.numericCols = yc :: yrest) :
    (generate_line_chart ts s).state.current_data =
      some (setCol t dc.name (convertColumn dc)) ∧
    (dc.dtype ≠ Dtype.datetime → setCol t dc.name (convertColumn dc) ≠ t) ∧
    (∀ (tool : ToolName) (ts' : String) (s' : GenState), tool ≠ ToolName.line →
      (applyTool tool ts' s').2.current_data = s'.current_data) := by
  refine ⟨?_, ?_, ?_⟩
  · simp [generate_line_chart, hload, hd, hn]
  · intro hdt heq
    have hmem : dc ∈ t.cols := by
      have hd' : dc ∈ t.dateCols := by
        rw [hd]
        exact List.mem_cons_self _ _
      exact (List.mem_filter.mp hd').1
    have hmem' : dc ∈ (setCol t dc.name (convertColumn dc)).cols := by
      rw [heq]
      exact hmem
    simp only [setCol, List.mem_map] at hmem'
    obtain ⟨c, hc, hceq⟩ := hmem'
    by_cases hna : c.name = dc.name
    · rw [if_pos hna] at hceq
      apply hdt
      have hdty : dc.dtype = (convertColumn dc).dtype := by rw [hceq]
      rw [hdty]
      rfl
    · rw [if_neg hna] at hceq
      exact hna (by rw [hceq])
  · intro tool ts' s' hne
    cases tool with
    | line => exact absurd rfl hne
    | bar => simpa [applyTool] using bar_preserves_table ts' s'
    | pie => simpa [applyTool] using pie_preserves_table ts' s'
    | heatmap => simpa [applyTool] using heatmap_preserves_table ts' s'
    | info => rfl

/-- Witness for C10: the line capability on `tableL` stores back a table
that differs from the loaded one. -/
theorem C10_line_mutates_witness :
    (generate_line_chart "ts0" stateL).state.current_data =
      some (setCol tableL "Date" (convertColumn ⟨"Date", Dtype.object, [.str "2024-01-01"]⟩)) ∧
    setCol tableL "Date" (convertColumn ⟨"Date", Dtype.object, [.str "2024-01-01"]⟩) ≠ tableL := by
  have h := C10_line_mutates "ts0" stateL tableL
    ⟨"Date", Dtype.object, [.str "2024-01-01"]⟩ []
    ⟨"revenue", Dtype.numeric, [.num 5]⟩ [] rfl (by decide) (by decide)
  exact ⟨h.1, h.2.1 (by decide)⟩

/-- Claim C4 (code bug): a request file whose body parses to a json value
that is not an object makes the bridge raise inside its own exception
handler, so no response record is written at all, while an unparseable body
does produce the sentinel error response with id unknown. -/
theorem C4_nonobject_request_no_response :
    process_kotlin_request (some (.plist [.pint 1, .pint 2, .pint 3])) true
      (fun _ => none) oracleFinish "ts0" = none ∧
    (∃ r, process_kotlin_request none true (fun _ => none) oracleFinish "ts0" = some r ∧
      r.id = .pstr "unknown" ∧ r.status = "error") :=
  ⟨rfl, ⟨_, rfl, rfl, rfl⟩⟩

end FinAnalyzer
